import Mathlib

/-!
Shallow embedding of the news-agent pipeline (news_agent/news_agent.py).

The Topic Store is the `State` structure (fields mirror the reflex
`State` class).  The three external capability calls (the `client.run`
invocations on the search, synthesis and summary agents) are modelled as
an oracle record `Caps`: each capability maps the user-message content it
receives to either `Except.ok reply` (the content of the last response
message) or `Except.error m` (a raised exception with message `m`).

`process_news` computes the terminal state of a run; `process_news_trace`
records the full run as a list of committed store states (the
`async with self` blocks) interleaved with the external calls made, so
that ordering and which-stage-was-invoked claims can be stated.
-/

namespace NewsAgent

/-- One DuckDuckGo search record, as consumed by `search_news`. -/
structure DDGResult where
  title : String
  href : String
  body : String
deriving Repr, DecidableEq

/-- Formatting of one record inside `search_news`. -/
def formatResult (r : DDGResult) : String :=
  "Title: " ++ r.title ++ "\nURL: " ++ r.href ++ "\nSummary: " ++ r.body

/-- `search_news` from the source: queries the DDGS oracle with
topic plus a recency qualifier and `max_results=3`, joins the records
into a text block, or returns a sentinel string when nothing is found.
The DDGS backend and the current month are oracle parameters. -/
def search_news (ddg : String → Nat → List DDGResult) (month : String)
    (topic : String) : String :=
  match ddg (topic ++ " news " ++ month) 3 with
  | [] => "No news found for " ++ topic ++ "."
  | r :: rs => String.intercalate "\n\n" ((r :: rs).map formatResult)

/-- The Topic Store: the fields of the reflex `State` class. -/
structure State where
  topic : String
  raw_news : String
  synthesized_news : String
  final_summary : String
  is_loading : Bool
  error_message : String
deriving Repr, DecidableEq

/-- The default store contents at session start. -/
def initialState : State :=
  { topic := "AI Agents", raw_news := "", synthesized_news := "",
    final_summary := "", is_loading := false, error_message := "" }

/-- `update_topic`: replaces the topic field, nothing else. -/
def State.update_topic (s : State) (topic : String) : State :=
  { s with topic := topic }

/-- The three external capabilities: each maps the user-message content
sent to `client.run` to the reply content, or to a raised exception
message. -/
structure Caps where
  search_run : String → Except String String
  synthesis_run : String → Except String String
  summary_run : String → Except String String

/-- Message sent to the search agent. -/
def searchMessage (topic : String) : String :=
  "Find recent news about " ++ topic

/-- Message sent to the synthesis agent. -/
def synthesisMessage (raw : String) : String :=
  "Synthesize these news articles:\n" ++ raw

/-- Message sent to the summary agent. -/
def summaryMessage (syn : String) : String :=
  "Summarize this synthesis:\n" ++ syn

/-- The store reset performed at the start of `process_news`. -/
def resetState (s : State) : State :=
  { s with
    is_loading := true, error_message := "", raw_news := "",
    synthesized_news := "", final_summary := "" }

/-- The commit performed by the exception handler of `process_news`. -/
def failState (s : State) (m : String) : State :=
  { s with error_message := "An error occurred: " ++ m, is_loading := false }

/-- An external capability invocation, carrying the message content sent. -/
inductive Call where
  | search (msg : String)
  | synthesis (msg : String)
  | summary (msg : String)
deriving Repr, DecidableEq

/-- One observable step of a run: a committed store state
(an `async with self` block) or an external call. -/
inductive TraceItem where
  | commit (s : State)
  | call (c : Call)
deriving Repr, DecidableEq

/-- Full trace of one `process_news` run from store state `s0`. -/
def process_news_trace (caps : Caps) (s0 : State) : List TraceItem :=
  TraceItem.commit (resetState s0) ::
  TraceItem.call (Call.search (searchMessage s0.topic)) ::
  match caps.search_run (searchMessage s0.topic) with
  | Except.error m => [TraceItem.commit (failState (resetState s0) m)]
  | Except.ok r1 =>
    TraceItem.commit { resetState s0 with raw_news := r1 } ::
    TraceItem.call (Call.synthesis (synthesisMessage r1)) ::
    match caps.synthesis_run (synthesisMessage r1) with
    | Except.error m =>
      [TraceItem.commit (failState { resetState s0 with raw_news := r1 } m)]
    | Except.ok r2 =>
      TraceItem.commit
        { resetState s0 with raw_news := r1, synthesized_news := r2 } ::
      TraceItem.call (Call.summary (summaryMessage r2)) ::
      match caps.summary_run (summaryMessage r2) with
      | Except.error m =>
        [TraceItem.commit (failState
          { resetState s0 with raw_news := r1, synthesized_news := r2 } m)]
      | Except.ok r3 =>
        [TraceItem.commit
          { resetState s0 with
            raw_news := r1, synthesized_news := r2,
            final_summary := r3, is_loading := false }]

/-- Terminal store state of one `process_news` run from `s0`. -/
def process_news (caps : Caps) (s0 : State) : State :=
  match caps.search_run (searchMessage s0.topic) with
  | Except.error m => failState (resetState s0) m
  | Except.ok r1 =>
    match caps.synthesis_run (synthesisMessage r1) with
    | Except.error m => failState { resetState s0 with raw_news := r1 } m
    | Except.ok r2 =>
      match caps.summary_run (summaryMessage r2) with
      | Except.error m =>
        failState { resetState s0 with raw_news := r1, synthesized_news := r2 } m
      | Except.ok r3 =>
        { resetState s0 with
          raw_news := r1, synthesized_news := r2,
          final_summary := r3, is_loading := false }

/-- The external calls made during a trace, in order. -/
def callsOf (tr : List TraceItem) : List Call :=
  tr.filterMap fun item =>
    match item with
    | TraceItem.call c => some c
    | TraceItem.commit _ => none

/-- The store states committed during a trace, in order. -/
def commitsOf (tr : List TraceItem) : List State :=
  tr.filterMap fun item =>
    match item with
    | TraceItem.commit s => some s
    | TraceItem.call _ => none

/-- The states of the Topic Store reachable from session start by topic
edits and pipeline runs (including states committed mid-run). -/
inductive Reachable : State → Prop where
  | init : Reachable initialState
  | set_topic (s : State) (t : String) :
      Reachable s → Reachable (s.update_topic t)
  | run (caps : Caps) (s st : State) :
      Reachable s → st ∈ commitsOf (process_news_trace caps s) → Reachable st

/-- The first stage to fail raised an exception with message `m`. -/
def failsWith (caps : Caps) (s0 : State) (m : String) : Prop :=
  caps.search_run (searchMessage s0.topic) = Except.error m
  ∨ (∃ r1, caps.search_run (searchMessage s0.topic) = Except.ok r1
      ∧ caps.synthesis_run (synthesisMessage r1) = Except.error m)
  ∨ (∃ r1 r2, caps.search_run (searchMessage s0.topic) = Except.ok r1
      ∧ caps.synthesis_run (synthesisMessage r1) = Except.ok r2
      ∧ caps.summary_run (summaryMessage r2) = Except.error m)

/-- At most one of three conditions holds. -/
def atMostOne (a b c : Prop) : Prop :=
  ¬(a ∧ b) ∧ ¬(a ∧ c) ∧ ¬(b ∧ c)

/-- The store invariant of the spec: at most one of running,
terminal-with-error, terminal-with-summary. -/
def storeInv (s : State) : Prop :=
  atMostOne (s.is_loading = true)
    (s.is_loading = false ∧ s.error_message ≠ "")
    (s.is_loading = false ∧ s.final_summary ≠ "")

/-- Strengthened invariant, closed under all store operations. -/
def strongInv (s : State) : Prop :=
  (s.is_loading = true → s.error_message = "" ∧ s.final_summary = "")
  ∧ (s.error_message = "" ∨ s.final_summary = "")

lemma wrapped_error_ne_empty (m : String) : "An error occurred: " ++ m ≠ "" := by
  intro h
  have hl := congrArg String.length h
  rw [String.length_append] at hl
  have h1 : ("An error occurred: " : String).length = 19 := rfl
  have h2 : ("" : String).length = 0 := rfl
  rw [h1, h2] at hl
  omega

lemma strongInv_storeInv (s : State) (h : strongInv s) : storeInv s := by
  obtain ⟨h1, h2⟩ := h
  refine ⟨?_, ?_, ?_⟩
  · rintro ⟨ha, hb, hc⟩
    exact hc ((h1 ha).1)
  · rintro ⟨ha, hb, hc⟩
    exact hc ((h1 ha).2)
  · rintro ⟨⟨_, hb⟩, ⟨_, hc⟩⟩
    rcases h2 with h | h
    · exact hb h
    · exact hc h

lemma commit_strongInv (caps : Caps) (s0 : State) (st : State)
    (hst : st ∈ commitsOf (process_news_trace caps s0)) : strongInv st := by
  cases h1 : caps.search_run (searchMessage s0.topic) with
  | error m =>
    simp [process_news_trace, commitsOf, h1] at hst
    rcases hst with h | h <;> subst h <;>
      simp [strongInv, resetState, failState, wrapped_error_ne_empty]
  | ok r1 =>
    cases h2 : caps.synthesis_run (synthesisMessage r1) with
    | error m =>
      simp [process_news_trace, commitsOf, h1, h2] at hst
      rcases hst with h | h | h <;> subst h <;>
        simp [strongInv, resetState, failState, wrapped_error_ne_empty]
    | ok r2 =>
      cases h3 : caps.summary_run (summaryMessage r2) with
      | error m =>
        simp [process_news_trace, commitsOf, h1, h2, h3] at hst
        rcases hst with h | h | h | h <;> subst h <;>
          simp [strongInv, resetState, failState, wrapped_error_ne_empty]
      | ok r3 =>
        simp [process_news_trace, commitsOf, h1, h2, h3] at hst
        rcases hst with h | h | h | h <;> subst h <;>
          simp [strongInv, resetState, failState]

lemma reachable_strongInv (s : State) (h : Reachable s) : strongInv s := by
  induction h with
  | init => simp [strongInv, initialState]
  | set_topic s t _ ih =>
    obtain ⟨h1, h2⟩ := ih
    exact ⟨h1, h2⟩
  | run caps s st _ hmem _ => exact commit_strongInv caps s st hmem

/-- Oracle where every stage call returns a concrete reply. -/
def okCaps : Caps where
  search_run := fun _ => Except.ok "raw stories"
  synthesis_run := fun _ => Except.ok "synthesis text"
  summary_run := fun _ => Except.ok "final paragraph"

/-- Oracle where the search stage raises. -/
def searchFailCaps : Caps where
  search_run := fun _ => Except.error "network down"
  synthesis_run := fun _ => Except.ok "synthesis text"
  summary_run := fun _ => Except.ok "final paragraph"

/-- Oracle where search returns a reply and synthesis raises. -/
def synthesisFailCaps : Caps where
  search_run := fun _ => Except.ok "three articles"
  synthesis_run := fun _ => Except.error "rate limit"
  summary_run := fun _ => Except.ok "final paragraph"

/-- Oracle where search returns an empty reply and synthesis raises. -/
def emptySearchCaps : Caps where
  search_run := fun _ => Except.ok ""
  synthesis_run := fun _ => Except.error "boom"
  summary_run := fun _ => Except.ok "final paragraph"

/-- C1: if Search, Synthesize and Summarize all succeed, the terminal
state has is_loading false, error_message empty and final_summary equal
to the Summarize capability reply for the Synthesize stage output. -/
theorem all_success_terminal_state (caps : Caps) (s0 : State)
    (r1 r2 r3 : String)
    (h1 : caps.search_run (searchMessage s0.topic) = Except.ok r1)
    (h2 : caps.synthesis_run (synthesisMessage r1) = Except.ok r2)
    (h3 : caps.summary_run (summaryMessage r2) = Except.ok r3) :
    (process_news caps s0).is_loading = false
    ∧ (process_news caps s0).error_message = ""
    ∧ (process_news caps s0).final_summary = r3 := by
  simp [process_news, h1, h2, h3, resetState]

theorem all_success_terminal_state_witness :
    (okCaps.search_run (searchMessage initialState.topic)
        = Except.ok "raw stories")
    ∧ ((process_news okCaps initialState).is_loading = false
      ∧ (process_news okCaps initialState).error_message = ""
      ∧ (process_news okCaps initialState).final_summary
          = "final paragraph") :=
  ⟨rfl, all_success_terminal_state okCaps initialState
    "raw stories" "synthesis text" "final paragraph" rfl rfl rfl⟩

/-- C2: if the first failing stage raises with message `m`, the terminal
state has error_message exactly "An error occurred: " ++ m and
is_loading false, and no stage after the failing one is invoked: the
call trace stops at the failing stage. -/
theorem failure_wraps_message_and_halts (caps : Caps) (s0 : State)
    (m : String) (h : failsWith caps s0 m) :
    (process_news caps s0).error_message = "An error occurred: " ++ m
    ∧ (process_news caps s0).is_loading = false
    ∧ (caps.search_run (searchMessage s0.topic) = Except.error m →
        callsOf (process_news_trace caps s0)
          = [Call.search (searchMessage s0.topic)])
    ∧ (∀ r1, caps.search_run (searchMessage s0.topic) = Except.ok r1 →
        caps.synthesis_run (synthesisMessage r1) = Except.error m →
        callsOf (process_news_trace caps s0)
          = [Call.search (searchMessage s0.topic),
             Call.synthesis (synthesisMessage r1)])
    ∧ (∀ r1 r2, caps.search_run (searchMessage s0.topic) = Except.ok r1 →
        caps.synthesis_run (synthesisMessage r1) = Except.ok r2 →
        caps.summary_run (summaryMessage r2) = Except.error m →
        callsOf (process_news_trace caps s0)
          = [Call.search (searchMessage s0.topic),
             Call.synthesis (synthesisMessage r1),
             Call.summary (summaryMessage r2)]) := by
  rcases h with h1 | ⟨r1, h1, h2⟩ | ⟨r1, r2, h1, h2, h3⟩
  · refine ⟨?_, ?_, ?_, ?_, ?_⟩
    · simp [process_news, h1, failState]
    · simp [process_news, h1, failState]
    · intro _
      simp [process_news_trace, callsOf, h1]
    · intro r1 hr1
      rw [h1] at hr1
      simp at hr1
    · intro r1 r2 hr1
      rw [h1] at hr1
      simp at hr1
  · refine ⟨?_, ?_, ?_, ?_, ?_⟩
    · simp [process_news, h1, h2, failState]
    · simp [process_news, h1, h2, failState]
    · intro hr
      rw [h1] at hr
      simp at hr
    · intro r1x hr1 hr2
      rw [h1] at hr1
      simp at hr1
      subst hr1
      simp [process_news_trace, callsOf, h1, hr2]
    · intro r1x r2x hr1 hr2
      rw [h1] at hr1
      simp at hr1
      subst hr1
      rw [h2] at hr2
      simp at hr2
  · refine ⟨?_, ?_, ?_, ?_, ?_⟩
    · simp [process_news, h1, h2, h3, failState]
    · simp [process_news, h1, h2, h3, failState]
    · intro hr
      rw [h1] at hr
      simp at hr
    · intro r1x hr1 hr2
      rw [h1] at hr1
      simp at hr1
      subst hr1
      rw [h2] at hr2
      simp at hr2
    · intro r1x r2x hr1 hr2 hr3
      rw [h1] at hr1
      simp at hr1
      subst hr1
      rw [h2] at hr2
      simp at hr2
      subst hr2
      simp [process_news_trace, callsOf, h1, h2, hr3]

theorem failure_wraps_message_and_halts_witness :
    failsWith searchFailCaps initialState "network down"
    ∧ ((process_news searchFailCaps initialState).error_message
          = "An error occurred: " ++ "network down"
      ∧ (process_news searchFailCaps initialState).is_loading = false
      ∧ (searchFailCaps.search_run (searchMessage initialState.topic)
            = Except.error "network down" →
          callsOf (process_news_trace searchFailCaps initialState)
            = [Call.search (searchMessage initialState.topic)])
      ∧ (∀ r1, searchFailCaps.search_run (searchMessage initialState.topic)
            = Except.ok r1 →
          searchFailCaps.synthesis_run (synthesisMessage r1)
            = Except.error "network down" →
          callsOf (process_news_trace searchFailCaps initialState)
            = [Call.search (searchMessage initialState.topic),
               Call.synthesis (synthesisMessage r1)])
      ∧ (∀ r1 r2, searchFailCaps.search_run (searchMessage initialState.topic)
            = Except.ok r1 →
          searchFailCaps.synthesis_run (synthesisMessage r1) = Except.ok r2 →
          searchFailCaps.summary_run (summaryMessage r2)
            = Except.error "network down" →
          callsOf (process_news_trace searchFailCaps initialState)
            = [Call.search (searchMessage initialState.topic),
               Call.synthesis (synthesisMessage r1),
               Call.summary (summaryMessage r2)])) :=
  ⟨Or.inl rfl,
    failure_wraps_message_and_halts searchFailCaps initialState
      "network down" (Or.inl rfl)⟩

/-- C4: if the Search stage fails, the terminal state keeps raw_news
empty, has a non-empty error_message and is_loading false, and neither
the Synthesize nor the Summarize capability is invoked. -/
theorem search_failure_no_later_stages (caps : Caps) (s0 : State)
    (m : String)
    (h : caps.search_run (searchMessage s0.topic) = Except.error m) :
    (process_news caps s0).raw_news = ""
    ∧ (process_news caps s0).error_message ≠ ""
    ∧ (process_news caps s0).is_loading = false
    ∧ callsOf (process_news_trace caps s0)
        = [Call.search (searchMessage s0.topic)] := by
  refine ⟨?_, ?_, ?_, ?_⟩
  · simp [process_news, h, failState, resetState]
  · simp [process_news, h, failState, wrapped_error_ne_empty]
  · simp [process_news, h, failState]
  · simp [process_news_trace, callsOf, h]

theorem search_failure_no_later_stages_witness :
    (searchFailCaps.search_run (searchMessage initialState.topic)
        = Except.error "network down")
    ∧ ((process_news searchFailCaps initialState).raw_news = ""
      ∧ (process_news searchFailCaps initialState).error_message ≠ ""
      ∧ (process_news searchFailCaps initialState).is_loading = false
      ∧ callsOf (process_news_trace searchFailCaps initialState)
          = [Call.search (searchMessage initialState.topic)]) :=
  ⟨rfl, search_failure_no_later_stages searchFailCaps initialState
    "network down" rfl⟩

/-- C3: a run on a non-running store commits the reset first - the
trace begins with a single commit that sets is_loading and clears
error_message and the three result fields - and only then performs the
first external call. -/
theorem run_resets_before_any_call (caps : Caps) (s0 : State)
    (_h : s0.is_loading = false) :
    (∃ rest, process_news_trace caps s0
      = TraceItem.commit (resetState s0) ::
        TraceItem.call (Call.search (searchMessage s0.topic)) :: rest)
    ∧ (resetState s0).is_loading = true
    ∧ (resetState s0).error_message = ""
    ∧ (resetState s0).raw_news = ""
    ∧ (resetState s0).synthesized_news = ""
    ∧ (resetState s0).final_summary = ""
    ∧ (resetState s0).topic = s0.topic :=
  ⟨⟨_, rfl⟩, rfl, rfl, rfl, rfl, rfl, rfl⟩

theorem run_resets_before_any_call_witness :
    initialState.is_loading = false
    ∧ ((∃ rest, process_news_trace okCaps initialState
        = TraceItem.commit (resetState initialState) ::
          TraceItem.call (Call.search (searchMessage initialState.topic))
            :: rest)
      ∧ (resetState initialState).is_loading = true
      ∧ (resetState initialState).error_message = ""
      ∧ (resetState initialState).raw_news = ""
      ∧ (resetState initialState).synthesized_news = ""
      ∧ (resetState initialState).final_summary = ""
      ∧ (resetState initialState).topic = initialState.topic) :=
  ⟨rfl, run_resets_before_any_call okCaps initialState rfl⟩

/-- C5 counterexample: a run in which Search succeeds (with the empty
reply) and Synthesize then fails, yet the terminal raw_news is empty -
refuting the unconditional non-emptiness of raw_news in the claim. -/
theorem synthesis_failure_empty_raw_counterexample :
    emptySearchCaps.search_run (searchMessage initialState.topic)
        = Except.ok ""
    ∧ emptySearchCaps.synthesis_run (synthesisMessage "")
        = Except.error "boom"
    ∧ (process_news emptySearchCaps initialState).raw_news = "" :=
  ⟨rfl, rfl, rfl⟩

/-- C5 amended: if Search succeeds with reply `r1` and Synthesize then
fails, the terminal state retains `r1` in raw_news (so raw_news is
non-empty whenever the Search reply was non-empty, and is not rolled
back), keeps synthesized_news empty, and has a non-empty error_message
with is_loading false. -/
theorem synthesis_failure_retains_raw (caps : Caps) (s0 : State)
    (r1 m : String)
    (h1 : caps.search_run (searchMessage s0.topic) = Except.ok r1)
    (h2 : caps.synthesis_run (synthesisMessage r1) = Except.error m) :
    (process_news caps s0).raw_news = r1
    ∧ (r1 ≠ "" → (process_news caps s0).raw_news ≠ "")
    ∧ (process_news caps s0).synthesized_news = ""
    ∧ (process_news caps s0).error_message ≠ ""
    ∧ (process_news caps s0).is_loading = false := by
  refine ⟨?_, ?_, ?_, ?_, ?_⟩
  · simp [process_news, h1, h2, failState, resetState]
  · intro hne
    simp [process_news, h1, h2, failState, resetState, hne]
  · simp [process_news, h1, h2, failState, resetState]
  · simp [process_news, h1, h2, failState, wrapped_error_ne_empty]
  · simp [process_news, h1, h2, failState]

theorem synthesis_failure_retains_raw_witness :
    (synthesisFailCaps.search_run (searchMessage initialState.topic)
        = Except.ok "three articles")
    ∧ ((process_news synthesisFailCaps initialState).raw_news
          = "three articles"
      ∧ ("three articles" ≠ "" →
          (process_news synthesisFailCaps initialState).raw_news ≠ "")
      ∧ (process_news synthesisFailCaps initialState).synthesized_news = ""
      ∧ (process_news synthesisFailCaps initialState).error_message ≠ ""
      ∧ (process_news synthesisFailCaps initialState).is_loading = false) :=
  ⟨rfl, synthesis_failure_retains_raw synthesisFailCaps initialState
    "three articles" "rate limit" rfl rfl⟩

/-- A concrete DDGS oracle returning one record, used to compare the
runner against the `search_news` flattening helper. -/
def sampleDDG : String → Nat → List DDGResult :=
  fun _ _ => [{ title := "A", href := "http:a", body := "a body" }]

/-- Oracle whose search agent replies with plain prose that is not a
flattened record block. -/
def proseCaps : Caps where
  search_run := fun _ => Except.ok "just some agent text"
  synthesis_run := fun _ => Except.ok "synthesis text"
  summary_run := fun _ => Except.ok "final paragraph"

/-- C6 counterexample: in a run, raw_news is the search agent reply
verbatim; it is not the newline-delimited flattening that `search_news`
produces from the DDGS records of the same environment, because the
runner never invokes `search_news` or the DDGS capability at all. -/
theorem raw_news_not_flattened_counterexample :
    (process_news proseCaps initialState).raw_news = "just some agent text"
    ∧ search_news sampleDDG "2025-10" initialState.topic
        = "Title: A\nURL: http:a\nSummary: a body"
    ∧ search_news sampleDDG "2025-10" initialState.topic
        ≠ "just some agent text" := by
  refine ⟨rfl, rfl, ?_⟩
  decide

/-- C6 amended: the Search stage sends the single message
"Find recent news about " ++ topic to the search agent and stores the
agent reply verbatim into raw_news; the `search_news` helper (which
flattens DDGS records into a newline-delimited block, or returns a
sentinel string when nothing is found) is defined in the module but is
not invoked by the runner. -/
theorem search_stage_stores_agent_reply (caps : Caps) (s0 : State)
    (r1 : String)
    (h1 : caps.search_run (searchMessage s0.topic) = Except.ok r1) :
    (process_news caps s0).raw_news = r1
    ∧ (process_news_trace caps s0)[1]?
        = some (TraceItem.call
            (Call.search ("Find recent news about " ++ s0.topic)))
    ∧ (∀ ddg month t, ddg (t ++ " news " ++ month) 3 = [] →
        search_news ddg month t = "No news found for " ++ t ++ ".") := by
  refine ⟨?_, ?_, ?_⟩
  · cases h2 : caps.synthesis_run (synthesisMessage r1) with
    | error m => simp [process_news, h1, h2, failState, resetState]
    | ok r2 =>
      cases h3 : caps.summary_run (summaryMessage r2) with
      | error m => simp [process_news, h1, h2, h3, failState, resetState]
      | ok r3 => simp [process_news, h1, h2, h3, resetState]
  · simp [process_news_trace, searchMessage]
  · intro ddg month t hdd
    simp [search_news, hdd]

theorem search_stage_stores_agent_reply_witness :
    (proseCaps.search_run (searchMessage initialState.topic)
        = Except.ok "just some agent text")
    ∧ ((process_news proseCaps initialState).raw_news
          = "just some agent text"
      ∧ (process_news_trace proseCaps initialState)[1]?
          = some (TraceItem.call
              (Call.search ("Find recent news about " ++ initialState.topic)))
      ∧ (∀ ddg month t, ddg (t ++ " news " ++ month) 3 = [] →
          search_news ddg month t = "No news found for " ++ t ++ ".")) :=
  ⟨rfl, search_stage_stores_agent_reply proseCaps initialState
    "just some agent text" rfl⟩

/-- C7: every reachable state of the Topic Store satisfies at most one
of: running, terminal with a non-empty error_message, terminal with a
non-empty final_summary. -/
theorem reachable_at_most_one_mode (s : State) (h : Reachable s) :
    storeInv s :=
  strongInv_storeInv s (reachable_strongInv s h)

theorem reachable_at_most_one_mode_witness : storeInv initialState :=
  reachable_at_most_one_mode initialState Reachable.init

/-- C8: in a fully successful run the stages are invoked strictly in
the order Search, Synthesize, Summarize, the Synthesize message is
built from the raw_news the store holds at the end of the run (the
Search stage output), and the Summarize message is built from the
stored synthesized_news (the Synthesize stage output). -/
theorem stages_in_order_and_chained (caps : Caps) (s0 : State)
    (r1 r2 r3 : String)
    (h1 : caps.search_run (searchMessage s0.topic) = Except.ok r1)
    (h2 : caps.synthesis_run (synthesisMessage r1) = Except.ok r2)
    (h3 : caps.summary_run (summaryMessage r2) = Except.ok r3) :
    callsOf (process_news_trace caps s0)
      = [Call.search (searchMessage s0.topic),
         Call.synthesis
           (synthesisMessage ((process_news caps s0).raw_news)),
         Call.summary
           (summaryMessage ((process_news caps s0).synthesized_news))]
    ∧ (process_news caps s0).raw_news = r1
    ∧ (process_news caps s0).synthesized_news = r2 := by
  have hraw : (process_news caps s0).raw_news = r1 := by
    simp [process_news, h1, h2, h3, resetState]
  have hsyn : (process_news caps s0).synthesized_news = r2 := by
    simp [process_news, h1, h2, h3, resetState]
  refine ⟨?_, hraw, hsyn⟩
  rw [hraw, hsyn]
  simp [process_news_trace, callsOf, h1, h2, h3]

theorem stages_in_order_and_chained_witness :
    (okCaps.search_run (searchMessage initialState.topic)
        = Except.ok "raw stories")
    ∧ (callsOf (process_news_trace okCaps initialState)
        = [Call.search (searchMessage initialState.topic),
           Call.synthesis
             (synthesisMessage
               ((process_news okCaps initialState).raw_news)),
           Call.summary
             (summaryMessage
               ((process_news okCaps initialState).synthesized_news))]
      ∧ (process_news okCaps initialState).raw_news = "raw stories"
      ∧ (process_news okCaps initialState).synthesized_news
          = "synthesis text") :=
  ⟨rfl, stages_in_order_and_chained okCaps initialState
    "raw stories" "synthesis text" "final paragraph" rfl rfl rfl⟩

/-- C9: update_topic replaces the topic field unconditionally with its
argument (the empty string included, no validation), is idempotent, and
changes no other store field. -/
theorem update_topic_unconditional_idempotent (s : State) (v : String) :
    ((s.update_topic v).topic = v)
    ∧ ((s.update_topic v).update_topic v = s.update_topic v)
    ∧ ((s.update_topic "").topic = "")
    ∧ ((s.update_topic v).raw_news = s.raw_news)
    ∧ ((s.update_topic v).synthesized_news = s.synthesized_news)
    ∧ ((s.update_topic v).final_summary = s.final_summary)
    ∧ ((s.update_topic v).is_loading = s.is_loading)
    ∧ ((s.update_topic v).error_message = s.error_message) :=
  ⟨rfl, rfl, rfl, rfl, rfl, rfl, rfl, rfl⟩

/-- C10: no commit of a run ever writes the topic field, and the error
handler writes only error_message and is_loading: whichever stage
raises, the terminal state is exactly `failState` applied to the store
state committed at the moment the exception was raised, so topic,
raw_news, synthesized_news and final_summary keep the values they had
then. -/
theorem error_handler_frame (caps : Caps) (s0 : State) :
    ((process_news caps s0).topic = s0.topic)
    ∧ (∀ st, TraceItem.commit st ∈ process_news_trace caps s0 →
        st.topic = s0.topic)
    ∧ (∀ m, caps.search_run (searchMessage s0.topic) = Except.error m →
        process_news caps s0 = failState (resetState s0) m)
    ∧ (∀ r1 m, caps.search_run (searchMessage s0.topic) = Except.ok r1 →
        caps.synthesis_run (synthesisMessage r1) = Except.error m →
        process_news caps s0
          = failState { resetState s0 with raw_news := r1 } m)
    ∧ (∀ r1 r2 m, caps.search_run (searchMessage s0.topic) = Except.ok r1 →
        caps.synthesis_run (synthesisMessage r1) = Except.ok r2 →
        caps.summary_run (summaryMessage r2) = Except.error m →
        process_news caps s0
          = failState
              { resetState s0 with
                raw_news := r1, synthesized_news := r2 } m) := by
  refine ⟨?_, ?_, ?_, ?_, ?_⟩
  · cases h1 : caps.search_run (searchMessage s0.topic) with
    | error m => simp [process_news, h1, failState, resetState]
    | ok r1 =>
      cases h2 : caps.synthesis_run (synthesisMessage r1) with
      | error m => simp [process_news, h1, h2, failState, resetState]
      | ok r2 =>
        cases h3 : caps.summary_run (summaryMessage r2) with
        | error m => simp [process_news, h1, h2, h3, failState, resetState]
        | ok r3 => simp [process_news, h1, h2, h3, resetState]
  · intro st hst
    cases h1 : caps.search_run (searchMessage s0.topic) with
    | error m =>
      simp [process_news_trace, h1] at hst
      rcases hst with h | h <;> subst h <;> simp [failState, resetState]
    | ok r1 =>
      cases h2 : caps.synthesis_run (synthesisMessage r1) with
      | error m =>
        simp [process_news_trace, h1, h2] at hst
        rcases hst with h | h | h <;> subst h <;>
          simp [failState, resetState]
      | ok r2 =>
        cases h3 : caps.summary_run (summaryMessage r2) with
        | error m =>
          simp [process_news_trace, h1, h2, h3] at hst
          rcases hst with h | h | h | h <;> subst h <;>
            simp [failState, resetState]
        | ok r3 =>
          simp [process_news_trace, h1, h2, h3] at hst
          rcases hst with h | h | h | h <;> subst h <;>
            simp [failState, resetState]
  · intro m h1
    simp [process_news, h1]
  · intro r1 m h1 h2
    simp [process_news, h1, h2]
  · intro r1 r2 m h1 h2 h3
    simp [process_news, h1, h2, h3]

theorem error_handler_frame_witness :
    (process_news synthesisFailCaps initialState
        = failState
            { resetState initialState with raw_news := "three articles" }
            "rate limit")
    ∧ (process_news synthesisFailCaps initialState).topic
        = initialState.topic :=
  ⟨(error_handler_frame synthesisFailCaps initialState).2.2.2.1
      "three articles" "rate limit" rfl rfl,
    (error_handler_frame synthesisFailCaps initialState).1⟩

end NewsAgent
